import Mathlib

/-!
Shallow embedding of the transfer and verification scripts of the NFT marketplace
(`src/node-script/colosseum-nft-test.js`, `src/unnamed/part_001`) and of the
fee breakdown documented in `src/unnamed/part_003`, together with
spec-modelled definitions for the backend components whose Rust sources
(`backend/src/nft.rs`, `backend/src/main.rs`) are not part of the provided
files.

Addresses are modelled symbolically: a program-derived address (PDA) is a
constructor applied to its seeds, so two derivations collide exactly when
their seeds coincide.  This is the standard symbolic idealisation of the
collision-resistant SHA-256 derivation `findProgramAddress` performs.
-/

namespace NftMarketplace

/-- A Solana public key / account address, symbolic.
`wallet` is an externally supplied base58 address, `ofSecret` the public key
of an ed25519 secret key, `program` a well-known program id, and `pda` a
program-derived address from three seeds (the shape `findProgramAddress`
is called with for associated token accounts: owner, token program, mint). -/
inductive Address where
  | wallet (s : String)
  | ofSecret (sk : List Nat)
  | program (name : String)
  | pda (seed1 seed2 seed3 : Address) (programId : Address)
deriving DecidableEq, Repr

/-- SPL token program id (`TOKEN_PROGRAM_ID` in `@solana/spl-token`). -/
def TOKEN_PROGRAM_ID : Address := .program "TokenkegQfeZyiNwAJbNbGKPFXCWuBvf9Ss623VQ5DA"

/-- Associated-token-account program id (`ASSOCIATED_TOKEN_PROGRAM_ID`). -/
def ASSOCIATED_TOKEN_PROGRAM_ID : Address := .program "ATokenGPvbdGVxr1b2hvZbsiqW5xWH25efTNsLJA8knL"

/-- `getAssociatedTokenAddress(mint, owner)` from `@solana/spl-token`:
the PDA of seeds `[owner, TOKEN_PROGRAM_ID, mint]` under the associated
token program.  Used at `colosseum-nft-test.js:87-88,130` and
`part_001:50-58`. -/
def getAssociatedTokenAddress (mint owner : Address) : Address :=
  .pda owner TOKEN_PROGRAM_ID mint ASSOCIATED_TOKEN_PROGRAM_ID

/-- An SPL token account: the data stored at a holding-account address. -/
structure TokenAccount where
  mint : Address
  owner : Address
  amount : Nat
deriving DecidableEq, Repr

/-- Ledger state: an association list from account address to token account. -/
abbrev Ledger : Type := List (Address × TokenAccount)

/-- `connection.getAccountInfo` / account lookup. -/
def getAccount : Ledger → Address → Option TokenAccount
  | [], _ => none
  | (k, v) :: rest, a => if k = a then some v else getAccount rest a

/-- Write (update-or-insert) an account into the ledger. -/
def setAccount : Ledger → Address → TokenAccount → Ledger
  | [], a, v => [(a, v)]
  | (k, w) :: rest, a, v =>
      if k = a then (a, v) :: rest else (k, w) :: setAccount rest a v

/-- The two instruction kinds the transfer scripts build:
`createAssociatedTokenAccountInstruction(payer, ata, owner, mint)` and
`createTransferInstruction(source, destination, owner, amount)`. -/
inductive Instruction where
  | createATA (payer ata owner mint : Address)
  | transferTokens (source destination authority : Address) (amount : Nat)
deriving DecidableEq, Repr

/-- On-chain semantics of one instruction.
The ATA `Create` instruction the scripts use is the non-idempotent variant:
it fails with "account already in use" when the address is already occupied
(only `CreateIdempotent`, which the scripts do not use, no-ops there).
SPL token `Transfer` requires both accounts to exist, the authority to be
the owner of the source, and sufficient source balance; a self-transfer leaves
the ledger unchanged. -/
def executeInstruction (l : Ledger) : Instruction → Except String Ledger
  | .createATA _payer ata owner mint =>
      match getAccount l ata with
      | some _ => .error "account already in use"
      | none => .ok (setAccount l ata ⟨mint, owner, 0⟩)
  | .transferTokens source destination authority amount =>
      match getAccount l source, getAccount l destination with
      | some src, some dst =>
          if src.owner ≠ authority then .error "owner does not match"
          else if src.amount < amount then .error "insufficient funds"
          else if source = destination then .ok l
          else .ok (setAccount (setAccount l source { src with amount := src.amount - amount })
                      destination { dst with amount := dst.amount + amount })
      | _, _ => .error "invalid account data"

/-- Atomic execution of one transaction: instructions run in order; the
first failure aborts the whole transaction and no state change survives
(the caller keeps the pre-state), mirroring Solana transaction atomicity. -/
def executeTransaction (l : Ledger) : List Instruction → Except String Ledger
  | [] => .ok l
  | i :: rest =>
      match executeInstruction l i with
      | .error e => .error e
      | .ok l2 => executeTransaction l2 rest

/-- A signing keypair (`Keypair.fromSecretKey`). -/
structure Keypair where
  secretKey : List Nat
deriving DecidableEq, Repr

/-- The public key derived from the secret key of the keypair. -/
def Keypair.publicKey (k : Keypair) : Address := .ofSecret k.secretKey

/-- The hard-coded fallback secret key at `colosseum-nft-test.js:77`. -/
def DEFAULT_PRIVATE_KEY : List Nat :=
  [127, 219, 34, 128, 198, 208, 53, 188, 139, 190, 156, 24, 107, 255, 52, 181,
   234, 120, 210, 7, 15, 101, 174, 57, 13, 23, 210, 77, 56, 243, 244, 135,
   94, 202, 28, 115, 76, 49, 207, 98, 1, 64, 42, 101, 70, 29, 114, 73,
   88, 240, 16, 222, 93, 92, 175, 199, 41, 246, 126, 38, 234, 48, 55, 244]

/-- `process.env.SOLANA_PRIVATE_KEY` split on commas, each entry trimmed and parsed as an integer
(`colosseum-nft-test.js:76`). -/
def parsePrivateKey (s : String) : List Nat :=
  (s.splitOn ",").map (fun t => (t.trim.toNat?).getD 0)

/-- `colosseum-nft-test.js:75-77`: use the environment key when set,
otherwise fall back to the hard-coded array. -/
def privateKeyArray (envKey : Option String) : List Nat :=
  match envKey with
  | some s => parsePrivateKey s
  | none => DEFAULT_PRIVATE_KEY

/-- The keypair `transferNFT` signs with (`colosseum-nft-test.js:79`). -/
def transferFromKeypair (envKey : Option String) : Keypair :=
  ⟨privateKeyArray envKey⟩

/-- The instruction list `transferNFT` assembles into its single transaction
(`colosseum-nft-test.js:91-113`): when the associated token account of the
recipient was not found, prepend its creation (payer = signer, owner =
recipient); always append a transfer of exactly 1 unit from the associated
token account of the signer to that of the recipient, authorised by the
signer. -/
def transferTxInstructions (fromPubkey mint recipient : Address)
    (destExists : Bool) : List Instruction :=
  (if destExists then []
   else [Instruction.createATA fromPubkey (getAssociatedTokenAddress mint recipient)
           recipient mint]) ++
  [Instruction.transferTokens (getAssociatedTokenAddress mint fromPubkey)
     (getAssociatedTokenAddress mint recipient) fromPubkey 1]

/-- The one transaction `transferNFT` submits, as built against a ledger
state: the existence pre-check is `getAccountInfo(toTokenAccount)`
(`colosseum-nft-test.js:94`). -/
def transferSubmittedTx (l : Ledger) (envKey : Option String)
    (nftAddress recipientAddress : Address) : List Instruction :=
  let fromPubkey := (transferFromKeypair envKey).publicKey
  let toTokenAccount := getAssociatedTokenAddress nftAddress recipientAddress
  transferTxInstructions fromPubkey nftAddress recipientAddress
    ((getAccount l toTokenAccount).isSome)

/-- `transferNFT(nftAddress, recipientAddress)` (`colosseum-nft-test.js:72-122`):
build the transaction and submit it with `sendAndConfirmTransaction`.
On success the post-state and the submitted transaction are returned; any
failure is caught and rethrown as `NFT transfer failed: <reason>`
(`colosseum-nft-test.js:119-121`). -/
def transferNFT (l : Ledger) (envKey : Option String)
    (nftAddress recipientAddress : Address) :
    Except String (Ledger × List Instruction) :=
  let tx := transferSubmittedTx l envKey nftAddress recipientAddress
  match executeTransaction l tx with
  | .ok l2 => .ok (l2, tx)
  | .error e => .error ("NFT transfer failed: " ++ e)

/-- The try-block of `verifyNFTTransfer` (`colosseum-nft-test.js:125-139`):
read the associated token account balance of the expected owner
(`getTokenAccountBalance` throws when the account does not exist) and
require it to be exactly 1, otherwise throw. -/
def verifyNFTTransferBody (l : Ledger) (nftAddress expectedOwner : Address) :
    Except String String :=
  match getAccount l (getAssociatedTokenAddress nftAddress expectedOwner) with
  | none => .error "could not find account"
  | some acct =>
      if acct.amount = 1 then .ok "Verification successful"
      else .error ("Verification failed: Expected 1 NFT, found " ++ toString acct.amount)

/-- Outcome of the verification step: either the corroborating read
succeeded, or the catch block logged a warning and swallowed the error. -/
inductive VerifyOutcome where
  | verified (msg : String)
  | warning (msg : String)
deriving DecidableEq, Repr

/-- `verifyNFTTransfer` (`colosseum-nft-test.js:124-144`): every error of the
body is caught and turned into a logged warning; nothing propagates. -/
def verifyNFTTransfer (l : Ledger) (nftAddress expectedOwner : Address) :
    VerifyOutcome :=
  match verifyNFTTransferBody l nftAddress expectedOwner with
  | .ok m => .verified m
  | .error e => .warning e

/-- What the end of `generateColosseumNFT` reports. -/
structure FlowResult where
  transferTx : List Instruction
  verifyOutcome : VerifyOutcome
deriving DecidableEq, Repr

/-- Steps 2-3 of `generateColosseumNFT` (`colosseum-nft-test.js:43-61`):
transfer, then verify, then print the success summary.  A transfer failure
propagates to the outer catch (`process.exit(1)`), but the verification
outcome is computed and then the success summary is printed regardless.
`lVerify` is the ledger state the connection of the verification observes,
which may lag the post-transfer state (`colosseum-nft-test.js:142` itself
notes the transfer may still be processing). -/
def nftTestFlow (lTransfer lVerify : Ledger) (envKey : Option String)
    (nftAddress userWallet : Address) : Except String FlowResult :=
  match transferNFT lTransfer envKey nftAddress userWallet with
  | .error e => .error e
  | .ok (_, tx) => .ok ⟨tx, verifyNFTTransfer lVerify nftAddress userWallet⟩

/-- `USER_WALLET_ADDRESS` (`colosseum-nft-test.js:10`). -/
def USER_WALLET_ADDRESS : Address :=
  .wallet "HN7cABqLq46Es1jh92dQQisAq662SmxELLLsHHe4YWrH"

/-- `TEST_CREATOR_ADDRESS` (`colosseum-nft-test.js:11`). -/
def TEST_CREATOR_ADDRESS : Address :=
  .wallet "7P25ACncfhKXcurkfAwGxiVo9zRycM1U6obWYzV9WC1Z"

/-- A signature value, symbolic ed25519: `signed sk msg` is the detached
signature `nacl.sign.detached(msg, sk)` (`part_001:29`); `raw` is an
arbitrary byte blob not produced by signing, such as the literal
`dummy_signature` literal sent at `colosseum-nft-test.js:12,28`. -/
inductive Sig where
  | raw (bytes : List Nat)
  | signed (sk : List Nat) (message : List Nat)
deriving DecidableEq, Repr

/-- The bytes of the string `dummy_signature`. -/
def DUMMY_SIGNATURE : Sig :=
  .raw ("dummy_signature".toList.map Char.toNat)

/-- Modelled from the spec: the backend Signature Verifier (the Rust
`backend/src` is not among the provided files; only its callers are).
Spec 4.1: `verify(message, signature, identity) -> bool` is pure and fails
closed — malformed signature bytes, wrong message, or an identity that is
not the public key of the signing key all yield `false`; it never throws.
Symbolically a signature verifies exactly when it was produced by the
secret key whose public key is the claimed identity, over the same
message. -/
def verify (message : List Nat) (signature : Sig) (identity : Address) : Bool :=
  match signature with
  | .raw _ => false
  | .signed sk m => decide (m = message) && decide (Address.ofSecret sk = identity)

/-- A caller-supplied signed assertion (spec 3: SignedAssertion). -/
structure SignedAssertion where
  message : List Nat
  signature : Sig
  claimed : Address
deriving DecidableEq, Repr

/-- Issuance error taxonomy (spec 4.4 / 7). -/
inductive IssuanceError where
  | unauthorized
  | submissionFailed (reason : String)
deriving DecidableEq, Repr

/-- Modelled from the spec: the identities the backend issuance transaction
records (the Rust `backend/src/nft.rs` is not among the provided files).
Spec 4.4 step 5: the backend signing identity pays all rent and the fee;
the owner identity of the caller is recorded as the holding-account owner
and as the creator in the metadata. -/
structure IssuanceTx where
  payer : Address
  holdingAccount : Address
  holdingAccountOwner : Address
  metadataCreator : Address
deriving DecidableEq, Repr

/-- Modelled from the spec: how the issuance transaction is assembled
(spec 4.4 steps 2-5): a fresh keypair-backed mint, the associated
token account as holding account, the owner identity recorded as its owner
and as metadata creator, the backend key as payer of everything. -/
def buildIssuanceTx (backendKey ownerIdentity mintAddress : Address) : IssuanceTx :=
  { payer := backendKey
  , holdingAccount := getAssociatedTokenAddress mintAddress ownerIdentity
  , holdingAccountOwner := ownerIdentity
  , metadataCreator := ownerIdentity }

/-- A ledger-mutating call the issuance flow makes. -/
inductive LedgerCall where
  | submitTransaction (tx : IssuanceTx)
deriving DecidableEq, Repr

/-- Modelled from the spec: the backend Issuance Orchestrator entry
(spec 4.4, steps 1-7; the Rust `backend/src` is not among the provided
files).  Step 1 verifies the assertion against the claimed owner identity
and returns `Unauthorized` on failure before anything else; only a
verified request builds and submits the (single, atomic) issuance
transaction.  The returned list is the trace of ledger-mutating calls. -/
def issue (backendKey ownerIdentity mintAddress : Address)
    (assertion : SignedAssertion) :
    List LedgerCall × Except IssuanceError IssuanceTx :=
  if verify assertion.message assertion.signature ownerIdentity then
    let tx := buildIssuanceTx backendKey ownerIdentity mintAddress
    ([LedgerCall.submitTransaction tx], .ok tx)
  else
    ([], .error .unauthorized)

/-- The transfer error taxonomy named by the spec (spec 4.5).  The scripts
themselves only ever produce a wrapped string (`NFT transfer failed: ...`,
`colosseum-nft-test.js:120`), which corresponds to `submissionFailed`. -/
inductive TransferError where
  | sourceEmpty
  | submissionFailed (reason : String)
deriving DecidableEq, Repr

/-- How the thrown error of the script reads in the taxonomy of the spec:
every
failure of `transferNFT` is the wrapped generic message, i.e. a
`submissionFailed`; no path produces `sourceEmpty`. -/
def classifyTransferFailure (e : String) : TransferError :=
  .submissionFailed e

/-- The fee breakdown record documented for `/fee-estimate` and `/mint-nft`
(`part_003:125-133` and `part_003:244-258`, identical in both places). -/
structure FeeBreakdown where
  mint_account_rent : Nat
  metadata_account_rent : Nat
  master_edition_rent : Nat
  transaction_fee : Nat
  total_minting_cost : Nat
  platform_fee : Nat
  total_fee : Nat
deriving DecidableEq, Repr

/-- The platform surcharge percentage: the documented numbers give
`platform_fee = total_minting_cost * 10 / 100` exactly. -/
def PLATFORM_FEE_PERCENT : Nat := 10

/-- The documented `mint_fee` breakdown, verbatim from
`part_003:244-258` (and repeated at `part_003:125-133`). -/
def mint_fee : FeeBreakdown :=
  { mint_account_rent := 1461600
  , metadata_account_rent := 5616720
  , master_edition_rent := 2853600
  , transaction_fee := 5000
  , total_minting_cost := 9936920
  , platform_fee := 993692
  , total_fee := 10930612 }


/-- A sample NFT mint address used for concrete witnesses and
counterexamples. -/
def demoMint : Address := .wallet "8LggDRrWnhxqRZ7softypodz2T3vBqPcLPDvbkPjfW1g"

/-- The public key of the hard-coded fallback keypair. -/
def demoPayer : Address := Address.ofSecret DEFAULT_PRIVATE_KEY

/-- The source holding account of the fallback signer for `demoMint`. -/
def demoSrcATA : Address := getAssociatedTokenAddress demoMint demoPayer

/-- The destination holding account of the test user wallet for `demoMint`. -/
def demoDestATA : Address := getAssociatedTokenAddress demoMint USER_WALLET_ADDRESS

/-- The bytes of the literal `test_message` (`colosseum-nft-test.js:13`). -/
def TEST_MESSAGE : List Nat := "test_message".toList.map Char.toNat

/-- Scenario: the signer holds the single unit and the destination holding
account does not exist yet (the state right after issuance). -/
def preTransferLedger : Ledger := [(demoSrcATA, ⟨demoMint, demoPayer, 1⟩)]

/-- Scenario: the existence pre-check was stale — the destination holding
account exists by the time the creation-plus-transfer transaction lands. -/
def stalePrecheckLedger : Ledger :=
  [(demoSrcATA, ⟨demoMint, demoPayer, 1⟩),
   (demoDestATA, ⟨demoMint, USER_WALLET_ADDRESS, 0⟩)]

/-- Scenario: the source holding account holds two units (not exactly one)
and the destination already exists. -/
def twoUnitSourceLedger : Ledger :=
  [(demoSrcATA, ⟨demoMint, demoPayer, 2⟩),
   (demoDestATA, ⟨demoMint, USER_WALLET_ADDRESS, 0⟩)]

/-- Scenario: the source holding account exists but is empty. -/
def emptySourceLedger : Ledger := [(demoSrcATA, ⟨demoMint, demoPayer, 0⟩)]

/-- The state after a successful demo transfer: source debited to zero,
destination created and credited with the single unit. -/
def postTransferLedger : Ledger :=
  [(demoSrcATA, ⟨demoMint, demoPayer, 0⟩),
   (demoDestATA, ⟨demoMint, USER_WALLET_ADDRESS, 1⟩)]

/-- The creation-plus-transfer transaction of the demo scenario. -/
def demoTransferTx : List Instruction :=
  [Instruction.createATA demoPayer demoDestATA USER_WALLET_ADDRESS demoMint,
   Instruction.transferTokens demoSrcATA demoDestATA demoPayer 1]

/-- Reading an account after a write: the written address returns the new
value, all others are unchanged. -/
theorem getAccount_setAccount (l : Ledger) (a b : Address) (v : TokenAccount) :
    getAccount (setAccount l a v) b = if a = b then some v else getAccount l b := by
  induction l with
  | nil => simp [setAccount, getAccount]
  | cons hd tl ih =>
      obtain ⟨k, w⟩ := hd
      by_cases hk : k = a
      · subst hk
        by_cases hb : k = b <;> simp [setAccount, getAccount, hb]
      · by_cases hb : k = b
        · subst hb
          have hab : a ≠ k := fun h => hk h.symm
          simp [setAccount, getAccount, hk, hab]
        · simp [setAccount, getAccount, hk, hb, ih]

/-- C8: the holding-account address derivation is pure and deterministic:
resolving twice with the same (asset, owner) pair yields the same address,
and changing the asset address or the owner identity yields a different
address (the PDA seeds differ, and seed lists determine addresses under
the symbolic collision-freeness idealisation of `findProgramAddress`). -/
theorem resolve_holding_account_deterministic_injective
    (asset owner asset2 owner2 : Address) (h : asset ≠ asset2 ∨ owner ≠ owner2) :
    getAssociatedTokenAddress asset owner = getAssociatedTokenAddress asset owner ∧
    getAssociatedTokenAddress asset owner ≠ getAssociatedTokenAddress asset2 owner2 := by
  refine ⟨rfl, fun he => ?_⟩
  simp only [getAssociatedTokenAddress, Address.pda.injEq] at he
  rcases h with h | h
  · exact h he.2.2.1
  · exact h he.1

/-- Witness for C8 at concrete inputs: the derivation for the demo mint
agrees with itself, and changing the owner from the test creator wallet to
the user wallet changes the derived address. -/
theorem resolve_holding_account_deterministic_injective_witness :
    (demoMint ≠ demoMint ∨ TEST_CREATOR_ADDRESS ≠ USER_WALLET_ADDRESS) ∧
    (getAssociatedTokenAddress demoMint TEST_CREATOR_ADDRESS =
       getAssociatedTokenAddress demoMint TEST_CREATOR_ADDRESS ∧
     getAssociatedTokenAddress demoMint TEST_CREATOR_ADDRESS ≠
       getAssociatedTokenAddress demoMint USER_WALLET_ADDRESS) :=
  ⟨Or.inr (by decide),
   resolve_holding_account_deterministic_injective demoMint TEST_CREATOR_ADDRESS demoMint
     USER_WALLET_ADDRESS (Or.inr (by decide))⟩

/-- C10: when `SOLANA_PRIVATE_KEY` is unset, the transfer routine falls
back to the fixed 64-byte secret key hard-coded in the source, so the
signing keypair is the constant fallback keypair; consequently the payer
of every account-creation instruction and the authority of every
balance-moving instruction in the submitted transaction is the public key
of that constant keypair. -/
theorem fallback_keypair_constant (envKey : Option String) (h : envKey = none) :
    privateKeyArray envKey = DEFAULT_PRIVATE_KEY ∧
    DEFAULT_PRIVATE_KEY.length = 64 ∧
    transferFromKeypair envKey = ⟨DEFAULT_PRIVATE_KEY⟩ ∧
    (transferFromKeypair envKey).publicKey = Address.ofSecret DEFAULT_PRIVATE_KEY ∧
    (∀ l nft w p a o m,
       Instruction.createATA p a o m ∈ transferSubmittedTx l envKey nft w →
         p = Address.ofSecret DEFAULT_PRIVATE_KEY) ∧
    (∀ l nft w s d auth amt,
       Instruction.transferTokens s d auth amt ∈ transferSubmittedTx l envKey nft w →
         auth = Address.ofSecret DEFAULT_PRIVATE_KEY) := by
  subst h
  refine ⟨rfl, by decide, rfl, rfl, ?_, ?_⟩
  · intro l nft w p a o m hm
    simp only [transferSubmittedTx, transferTxInstructions, transferFromKeypair,
      Keypair.publicKey, privateKeyArray] at hm
    cases hb : (getAccount l (getAssociatedTokenAddress nft w)).isSome <;>
      simp [hb] at hm
    exact hm.1
  · intro l nft w s d auth amt hm
    simp only [transferSubmittedTx, transferTxInstructions, transferFromKeypair,
      Keypair.publicKey, privateKeyArray] at hm
    cases hb : (getAccount l (getAssociatedTokenAddress nft w)).isSome <;>
      simp [hb] at hm
    · exact hm.2.2.1
    · exact hm.2.2.1

/-- Witness for C10: with the environment variable absent the parsed key is
exactly the hard-coded 64-byte constant. -/
theorem fallback_keypair_constant_witness :
    (none : Option String) = none ∧
    privateKeyArray none = DEFAULT_PRIVATE_KEY ∧ DEFAULT_PRIVATE_KEY.length = 64 :=
  ⟨rfl, (fallback_keypair_constant none rfl).1, (fallback_keypair_constant none rfl).2.1⟩

/-- C5 counterexample: the platform surcharge of the documented breakdown is
not computed on the subtotal that excludes the flat network transaction
fee: 10 percent of the rent-only subtotal would be 993192, while the
documented `platform_fee` is 993692 (10 percent of the subtotal including
the 5000 transaction fee). -/
theorem platform_fee_base_includes_network_fee :
    mint_fee.platform_fee ≠
      (mint_fee.mint_account_rent + mint_fee.metadata_account_rent +
        mint_fee.master_edition_rent) * PLATFORM_FEE_PERCENT / 100 := by decide

/-- C5 amended: the total equals the exact integer sum of the component
fields (rents plus flat transaction fee plus platform surcharge, no
rounding drift), and the platform surcharge is 10 percent of the
ledger-cost subtotal that INCLUDES the flat network transaction fee. -/
theorem mint_fee_total_is_exact_sum :
    mint_fee.total_fee =
      mint_fee.mint_account_rent + mint_fee.metadata_account_rent +
        mint_fee.master_edition_rent + mint_fee.transaction_fee + mint_fee.platform_fee ∧
    mint_fee.total_minting_cost =
      mint_fee.mint_account_rent + mint_fee.metadata_account_rent +
        mint_fee.master_edition_rent + mint_fee.transaction_fee ∧
    mint_fee.platform_fee = mint_fee.total_minting_cost * PLATFORM_FEE_PERCENT / 100 ∧
    mint_fee.total_fee = mint_fee.total_minting_cost + mint_fee.platform_fee := by decide

/-- C3: an issuance request whose signed assertion does not verify against
the claimed owner identity is rejected with `Unauthorized` as the first
step, before any ledger-mutating call (the call trace is empty); and the
verifier returns `false` on any malformed raw signature blob rather than
throwing (it is a total function). -/
theorem issuance_unauthorized_before_ledger_calls
    (backendKey ownerIdentity mintAddress : Address) (assertion : SignedAssertion)
    (h : verify assertion.message assertion.signature ownerIdentity = false) :
    issue backendKey ownerIdentity mintAddress assertion = ([], .error .unauthorized) ∧
    (∀ msg bytes identity, verify msg (.raw bytes) identity = false) := by
  refine ⟨?_, fun _ _ _ => rfl⟩
  simp [issue, h]

/-- Witness for C3: the dummy signature of the test script does not verify
against the test creator wallet, and issuance with it returns
`Unauthorized` with an empty ledger-call trace. -/
theorem issuance_unauthorized_witness :
    verify TEST_MESSAGE DUMMY_SIGNATURE TEST_CREATOR_ADDRESS = false ∧
    issue demoPayer TEST_CREATOR_ADDRESS demoMint
        ⟨TEST_MESSAGE, DUMMY_SIGNATURE, TEST_CREATOR_ADDRESS⟩ =
      ([], .error .unauthorized) :=
  ⟨rfl,
   (issuance_unauthorized_before_ledger_calls demoPayer TEST_CREATOR_ADDRESS demoMint
      ⟨TEST_MESSAGE, DUMMY_SIGNATURE, TEST_CREATOR_ADDRESS⟩ rfl).1⟩

/-- Creating an associated token account at a free address succeeds and
installs a zero-balance account. -/
theorem executeInstruction_createATA_absent (l : Ledger) (p a o m : Address)
    (h : getAccount l a = none) :
    executeInstruction l (.createATA p a o m) = .ok (setAccount l a ⟨m, o, 0⟩) := by
  simp [executeInstruction, h]

/-- The non-idempotent ATA create hard-fails on an occupied address. -/
theorem executeInstruction_createATA_present (l : Ledger) (p a o m : Address)
    (acct : TokenAccount) (h : getAccount l a = some acct) :
    executeInstruction l (.createATA p a o m) = .error "account already in use" := by
  simp [executeInstruction, h]

/-- A token transfer between distinct existing accounts with the right
authority and sufficient balance debits the source and credits the
destination. -/
theorem executeInstruction_transfer_ok (l : Ledger) (s d auth : Address) (amt : Nat)
    (sa da : TokenAccount) (hs : getAccount l s = some sa) (hd : getAccount l d = some da)
    (hown : sa.owner = auth) (hamt : ¬ sa.amount < amt) (hne : s ≠ d) :
    executeInstruction l (.transferTokens s d auth amt) =
      .ok (setAccount (setAccount l s { sa with amount := sa.amount - amt })
            d { da with amount := da.amount + amt }) := by
  simp [executeInstruction, hs, hd, hown, hamt, hne]

/-- A token transfer from a source with insufficient balance is rejected
by the ledger with the generic insufficient-funds reason. -/
theorem executeInstruction_transfer_insufficient (l : Ledger) (s d auth : Address)
    (amt : Nat) (sa da : TokenAccount)
    (hs : getAccount l s = some sa) (hd : getAccount l d = some da)
    (hown : sa.owner = auth) (hamt : sa.amount < amt) :
    executeInstruction l (.transferTokens s d auth amt) = .error "insufficient funds" := by
  simp [executeInstruction, hs, hd, hown, hamt]

/-- Stepping a transaction past a successful instruction. -/
theorem executeTransaction_cons_ok (l l1 : Ledger) (i : Instruction)
    (rest : List Instruction) (h : executeInstruction l i = .ok l1) :
    executeTransaction l (i :: rest) = executeTransaction l1 rest := by
  simp [executeTransaction, h]

/-- A failing instruction aborts the whole transaction with its error. -/
theorem executeTransaction_cons_error (l : Ledger) (i : Instruction)
    (rest : List Instruction) (e : String) (h : executeInstruction l i = .error e) :
    executeTransaction l (i :: rest) = .error e := by
  simp [executeTransaction, h]

/-- `transferNFT` unfolded: it executes exactly the built transaction and
wraps any failure in the generic catch message. -/
theorem transferNFT_eq (l : Ledger) (envKey : Option String) (nft w : Address) :
    transferNFT l envKey nft w =
      match executeTransaction l (transferSubmittedTx l envKey nft w) with
      | .ok l2 => .ok (l2, transferSubmittedTx l envKey nft w)
      | .error e => .error ("NFT transfer failed: " ++ e) := rfl

/-- When the destination account is absent at build time the submitted
transaction is the creation instruction followed by the 1-unit transfer. -/
theorem transferSubmittedTx_absent (l : Ledger) (envKey : Option String)
    (nft w : Address) (h : getAccount l (getAssociatedTokenAddress nft w) = none) :
    transferSubmittedTx l envKey nft w =
      [Instruction.createATA (transferFromKeypair envKey).publicKey
         (getAssociatedTokenAddress nft w) w nft,
       Instruction.transferTokens
         (getAssociatedTokenAddress nft (transferFromKeypair envKey).publicKey)
         (getAssociatedTokenAddress nft w) (transferFromKeypair envKey).publicKey 1] := by
  simp [transferSubmittedTx, transferTxInstructions, h]

/-- When the destination account is present at build time the submitted
transaction is the 1-unit transfer alone. -/
theorem transferSubmittedTx_present (l : Ledger) (envKey : Option String)
    (nft w : Address) (d : TokenAccount)
    (h : getAccount l (getAssociatedTokenAddress nft w) = some d) :
    transferSubmittedTx l envKey nft w =
      [Instruction.transferTokens
         (getAssociatedTokenAddress nft (transferFromKeypair envKey).publicKey)
         (getAssociatedTokenAddress nft w) (transferFromKeypair envKey).publicKey 1] := by
  simp [transferSubmittedTx, transferTxInstructions, h]

/-- C2: payer/owner separation.  In the spec-modelled issuance transaction
the backend signing identity is the payer while the caller-supplied owner
identity is recorded as holding-account owner and metadata creator, and
the payer is not the recorded owner whenever the two identities differ.
In the transfer transaction from the source, every account-creation
instruction names the signing key as rent payer and the caller-supplied
recipient as the recorded owner (again distinct whenever the identities
are), and the balance move is authorised by the signing key — payer and
authority are separate instruction fields even though this script fills
both from the same keypair. -/
theorem payer_never_recorded_owner
    (backendKey ownerIdentity mintAddress fromPubkey recipient : Address)
    (destExists : Bool)
    (hIss : ownerIdentity ≠ backendKey) (hTr : recipient ≠ fromPubkey) :
    ((buildIssuanceTx backendKey ownerIdentity mintAddress).payer = backendKey ∧
     (buildIssuanceTx backendKey ownerIdentity mintAddress).holdingAccountOwner = ownerIdentity ∧
     (buildIssuanceTx backendKey ownerIdentity mintAddress).metadataCreator = ownerIdentity ∧
     (buildIssuanceTx backendKey ownerIdentity mintAddress).payer ≠
       (buildIssuanceTx backendKey ownerIdentity mintAddress).holdingAccountOwner) ∧
    (∀ p a o m,
       Instruction.createATA p a o m ∈
           transferTxInstructions fromPubkey mintAddress recipient destExists →
         p = fromPubkey ∧ o = recipient ∧ p ≠ o) ∧
    (∀ s d auth amt,
       Instruction.transferTokens s d auth amt ∈
           transferTxInstructions fromPubkey mintAddress recipient destExists →
         auth = fromPubkey) := by
  refine ⟨⟨rfl, rfl, rfl, fun he => hIss he.symm⟩, ?_, ?_⟩
  · intro p a o m hm
    cases destExists <;> simp [transferTxInstructions] at hm
    obtain ⟨hp, -, ho, -⟩ := hm
    subst hp; subst ho
    exact ⟨rfl, rfl, fun he => hTr he.symm⟩
  · intro s d auth amt hm
    cases destExists <;> simp [transferTxInstructions] at hm
    · exact hm.2.2.1
    · exact hm.2.2.1

/-- Witness for C2 at the concrete test identities: the backend fallback
key differs from the creator and user wallets, and the issuance payer is
not the recorded holding-account owner. -/
theorem payer_never_recorded_owner_witness :
    (TEST_CREATOR_ADDRESS ≠ demoPayer ∧ USER_WALLET_ADDRESS ≠ demoPayer) ∧
    (buildIssuanceTx demoPayer TEST_CREATOR_ADDRESS demoMint).payer ≠
      (buildIssuanceTx demoPayer TEST_CREATOR_ADDRESS demoMint).holdingAccountOwner :=
  ⟨⟨by decide, by decide⟩,
   ((payer_never_recorded_owner demoPayer TEST_CREATOR_ADDRESS demoMint demoPayer
       USER_WALLET_ADDRESS false (by decide) (by decide)).1).2.2.2⟩

/-- Inverting a successful run of the creation-plus-transfer transaction:
it can only have succeeded if the source existed, was owned by the signer
and held at least one unit, and then the destination ends created AND
funded with exactly one unit while the source is debited by one. -/
theorem executeTransaction_create_then_transfer_ok
    (l : Ledger) (pk w nft : Address) (l3 : Ledger)
    (h : getAccount l (getAssociatedTokenAddress nft w) = none)
    (hex : executeTransaction l
        [Instruction.createATA pk (getAssociatedTokenAddress nft w) w nft,
         Instruction.transferTokens (getAssociatedTokenAddress nft pk)
           (getAssociatedTokenAddress nft w) pk 1] = .ok l3) :
    ∃ sa : TokenAccount, getAccount l (getAssociatedTokenAddress nft pk) = some sa ∧
      sa.owner = pk ∧ 1 ≤ sa.amount ∧
      getAccount l3 (getAssociatedTokenAddress nft w) = some ⟨nft, w, 1⟩ ∧
      getAccount l3 (getAssociatedTokenAddress nft pk) =
        some { sa with amount := sa.amount - 1 } := by
  have hstep1 :=
    executeInstruction_createATA_absent l pk (getAssociatedTokenAddress nft w) w nft h
  rw [executeTransaction_cons_ok _ _ _ _ hstep1] at hex
  have hdst1 : getAccount (setAccount l (getAssociatedTokenAddress nft w) ⟨nft, w, 0⟩)
      (getAssociatedTokenAddress nft w) = some ⟨nft, w, 0⟩ := by
    rw [getAccount_setAccount, if_pos rfl]
  by_cases hds : getAssociatedTokenAddress nft w = getAssociatedTokenAddress nft pk
  · have hw : w = pk := by
      simpa [getAssociatedTokenAddress, Address.pda.injEq] using hds
    have hsrc1 : getAccount (setAccount l (getAssociatedTokenAddress nft w) ⟨nft, w, 0⟩)
        (getAssociatedTokenAddress nft pk) = some ⟨nft, w, 0⟩ := by
      rw [← hds]; exact hdst1
    have herr := executeInstruction_transfer_insufficient
      (setAccount l (getAssociatedTokenAddress nft w) ⟨nft, w, 0⟩)
      (getAssociatedTokenAddress nft pk) (getAssociatedTokenAddress nft w) pk 1
      ⟨nft, w, 0⟩ ⟨nft, w, 0⟩ hsrc1 hdst1 hw (by simp)
    rw [executeTransaction_cons_error _ _ _ _ herr] at hex
    simp at hex
  · have hsrc1 : getAccount (setAccount l (getAssociatedTokenAddress nft w) ⟨nft, w, 0⟩)
        (getAssociatedTokenAddress nft pk) = getAccount l (getAssociatedTokenAddress nft pk) := by
      rw [getAccount_setAccount, if_neg hds]
    cases hsa : getAccount l (getAssociatedTokenAddress nft pk) with
    | none =>
        have herr : executeInstruction
            (setAccount l (getAssociatedTokenAddress nft w) ⟨nft, w, 0⟩)
            (.transferTokens (getAssociatedTokenAddress nft pk)
              (getAssociatedTokenAddress nft w) pk 1) = .error "invalid account data" := by
          simp [executeInstruction, hsrc1, hsa]
        rw [executeTransaction_cons_error _ _ _ _ herr] at hex
        simp at hex
    | some sa =>
        have hssa : getAccount (setAccount l (getAssociatedTokenAddress nft w) ⟨nft, w, 0⟩)
            (getAssociatedTokenAddress nft pk) = some sa := hsrc1.trans hsa
        by_cases hown : sa.owner = pk
        · by_cases hamt : sa.amount < 1
          · have herr := executeInstruction_transfer_insufficient
              (setAccount l (getAssociatedTokenAddress nft w) ⟨nft, w, 0⟩)
              (getAssociatedTokenAddress nft pk) (getAssociatedTokenAddress nft w) pk 1
              sa ⟨nft, w, 0⟩ hssa hdst1 hown hamt
            rw [executeTransaction_cons_error _ _ _ _ herr] at hex
            simp at hex
          · have hne : getAssociatedTokenAddress nft pk ≠ getAssociatedTokenAddress nft w :=
              fun hh => hds hh.symm
            have hstep2 := executeInstruction_transfer_ok
              (setAccount l (getAssociatedTokenAddress nft w) ⟨nft, w, 0⟩)
              (getAssociatedTokenAddress nft pk) (getAssociatedTokenAddress nft w) pk 1
              sa ⟨nft, w, 0⟩ hssa hdst1 hown hamt hne
            rw [executeTransaction_cons_ok _ _ _ _ hstep2] at hex
            simp [executeTransaction] at hex
            refine ⟨sa, rfl, hown, Nat.le_of_not_lt hamt, ?_, ?_⟩
            · rw [← hex, getAccount_setAccount, if_pos rfl]
            · rw [← hex, getAccount_setAccount, if_neg hds, getAccount_setAccount, if_pos rfl]
        · have herr : executeInstruction
              (setAccount l (getAssociatedTokenAddress nft w) ⟨nft, w, 0⟩)
              (.transferTokens (getAssociatedTokenAddress nft pk)
                (getAssociatedTokenAddress nft w) pk 1) = .error "owner does not match" := by
            simp [executeInstruction, hssa, hdst1, hown]
          rw [executeTransaction_cons_error _ _ _ _ herr] at hex
          simp at hex

/-- C1: when the destination holding account does not exist at build time,
the submitted transaction is a single instruction list containing its
creation instruction together with the balance-moving instruction, and the
transfer instruction moves exactly one unit from the holding account of
the signer to the holding account of the recipient.  Execution is atomic:
a successful run returns exactly this transaction with the destination
created AND funded at balance one (a created-but-unfunded destination is
impossible), and a failed run returns only the wrapped error with no
surviving state. -/
theorem transfer_creates_destination_in_same_transaction
    (l : Ledger) (envKey : Option String) (nft w : Address)
    (h : getAccount l (getAssociatedTokenAddress nft w) = none) :
    transferSubmittedTx l envKey nft w =
      [Instruction.createATA (transferFromKeypair envKey).publicKey
         (getAssociatedTokenAddress nft w) w nft,
       Instruction.transferTokens
         (getAssociatedTokenAddress nft (transferFromKeypair envKey).publicKey)
         (getAssociatedTokenAddress nft w) (transferFromKeypair envKey).publicKey 1] ∧
    (∀ l2 tx, transferNFT l envKey nft w = .ok (l2, tx) →
       tx = transferSubmittedTx l envKey nft w ∧
       getAccount l2 (getAssociatedTokenAddress nft w) = some ⟨nft, w, 1⟩) ∧
    (∀ e, executeTransaction l (transferSubmittedTx l envKey nft w) = .error e →
       transferNFT l envKey nft w = .error ("NFT transfer failed: " ++ e)) := by
  have htx := transferSubmittedTx_absent l envKey nft w h
  refine ⟨htx, ?_, ?_⟩
  · intro l2 tx hok
    rw [transferNFT_eq] at hok
    cases hex : executeTransaction l (transferSubmittedTx l envKey nft w) with
    | error e => rw [hex] at hok; simp at hok
    | ok l3 =>
        rw [hex] at hok
        simp only [Except.ok.injEq, Prod.mk.injEq] at hok
        obtain ⟨hl, ht⟩ := hok
        subst hl
        refine ⟨ht.symm, ?_⟩
        rw [htx] at hex
        obtain ⟨sa, -, -, -, hdstbal, -⟩ :=
          executeTransaction_create_then_transfer_ok l _ w nft _ h hex
        exact hdstbal
  · intro e he
    rw [transferNFT_eq, he]

/-- Witness for C1: in the demo state (signer holds the unit, destination
absent) the submitted transaction is exactly the creation instruction
followed by the one-unit transfer. -/
theorem transfer_creates_destination_in_same_transaction_witness :
    getAccount preTransferLedger demoDestATA = none ∧
    transferSubmittedTx preTransferLedger none demoMint USER_WALLET_ADDRESS =
      [Instruction.createATA demoPayer demoDestATA USER_WALLET_ADDRESS demoMint,
       Instruction.transferTokens demoSrcATA demoDestATA demoPayer 1] :=
  ⟨by decide,
   (transfer_creates_destination_in_same_transaction preTransferLedger none demoMint
      USER_WALLET_ADDRESS (by decide)).1⟩

/-- C4 counterexample: the creation instruction the scripts use is the
non-idempotent ATA `Create`.  When the destination account already exists
by the time the transaction lands (stale pre-check), the instruction is a
hard failure, not a no-op, and it aborts the whole transfer transaction. -/
theorem create_instruction_hard_fails_when_account_exists :
    executeInstruction stalePrecheckLedger
      (Instruction.createATA demoPayer demoDestATA USER_WALLET_ADDRESS demoMint) =
      .error "account already in use" ∧
    executeTransaction stalePrecheckLedger demoTransferTx =
      .error "account already in use" := ⟨rfl, rfl⟩

/-- C4 amended: the code avoids re-creation through the fresh existence
pre-check rather than through an idempotent instruction: when the
destination holding account already exists at build time, no creation
instruction is included in the submitted transaction at all, so a second
transfer attempt toward the same destination does not fail on account
creation (and, with a funded source, succeeds outright).  The creation
instruction itself, when the pre-check is stale, hard-fails instead of
no-opping. -/
theorem create_skipped_when_destination_exists
    (l : Ledger) (envKey : Option String) (nft w : Address) (d : TokenAccount)
    (hdst : getAccount l (getAssociatedTokenAddress nft w) = some d) :
    (∀ p a o m, Instruction.createATA p a o m ∉ transferSubmittedTx l envKey nft w) ∧
    (getAccount l (getAssociatedTokenAddress nft (transferFromKeypair envKey).publicKey) =
        some ⟨nft, (transferFromKeypair envKey).publicKey, 1⟩ →
      getAssociatedTokenAddress nft (transferFromKeypair envKey).publicKey ≠
        getAssociatedTokenAddress nft w →
      transferNFT l envKey nft w =
        .ok (setAccount (setAccount l
               (getAssociatedTokenAddress nft (transferFromKeypair envKey).publicKey)
               ⟨nft, (transferFromKeypair envKey).publicKey, 0⟩)
              (getAssociatedTokenAddress nft w) { d with amount := d.amount + 1 },
             transferSubmittedTx l envKey nft w)) := by
  have htx := transferSubmittedTx_present l envKey nft w d hdst
  constructor
  · intro p a o m hm
    rw [htx] at hm
    simp at hm
  · intro hsrc hne
    have hstep := executeInstruction_transfer_ok l
      (getAssociatedTokenAddress nft (transferFromKeypair envKey).publicKey)
      (getAssociatedTokenAddress nft w) (transferFromKeypair envKey).publicKey 1
      ⟨nft, (transferFromKeypair envKey).publicKey, 1⟩ d hsrc hdst rfl (by simp) hne
    have hex : executeTransaction l (transferSubmittedTx l envKey nft w) =
        .ok (setAccount (setAccount l
              (getAssociatedTokenAddress nft (transferFromKeypair envKey).publicKey)
              ⟨nft, (transferFromKeypair envKey).publicKey, 0⟩)
             (getAssociatedTokenAddress nft w) { d with amount := d.amount + 1 }) := by
      rw [htx, executeTransaction_cons_ok _ _ _ _ hstep]
      rfl
    rw [transferNFT_eq, hex]

/-- Witness for C4: in the stale-pre-check state, rebuilding the transfer
includes no creation instruction. -/
theorem create_skipped_when_destination_exists_witness :
    getAccount stalePrecheckLedger demoDestATA = some ⟨demoMint, USER_WALLET_ADDRESS, 0⟩ ∧
    (∀ p a o m, Instruction.createATA p a o m ∉
       transferSubmittedTx stalePrecheckLedger none demoMint USER_WALLET_ADDRESS) :=
  ⟨by decide,
   (create_skipped_when_destination_exists stalePrecheckLedger none demoMint
      USER_WALLET_ADDRESS ⟨demoMint, USER_WALLET_ADDRESS, 0⟩ (by decide)).1⟩

/-- C6 counterexample: when the source holding account holds two units
(not exactly one), the transfer is submitted and SUCCEEDS, moving one of
the two units — no `SourceEmpty` (and no error at all) is returned,
refuting the claim that a non-unit source balance yields
`TransferError::SourceEmpty`. -/
theorem transfer_submits_despite_nonunit_source :
    (getAccount twoUnitSourceLedger demoSrcATA).elim 0 TokenAccount.amount = 2 ∧
    transferNFT twoUnitSourceLedger none demoMint USER_WALLET_ADDRESS =
      .ok ([(demoSrcATA, ⟨demoMint, demoPayer, 1⟩),
            (demoDestATA, ⟨demoMint, USER_WALLET_ADDRESS, 1⟩)],
           [Instruction.transferTokens demoSrcATA demoDestATA demoPayer 1]) := ⟨rfl, rfl⟩

/-- C6 amended: the transfer routine never checks the source balance: the
balance-moving instruction is submitted even against an empty source, the
ledger rejects it, and the routine surfaces the wrapped generic message
(the `SubmissionFailed` shape) — there is no distinguished `SourceEmpty`
error anywhere in the code. -/
theorem empty_source_generic_submission_failure
    (l : Ledger) (envKey : Option String) (nft w : Address)
    (hsrc : getAccount l
        (getAssociatedTokenAddress nft (transferFromKeypair envKey).publicKey) =
        some ⟨nft, (transferFromKeypair envKey).publicKey, 0⟩) :
    Instruction.transferTokens
        (getAssociatedTokenAddress nft (transferFromKeypair envKey).publicKey)
        (getAssociatedTokenAddress nft w) (transferFromKeypair envKey).publicKey 1
      ∈ transferSubmittedTx l envKey nft w ∧
    transferNFT l envKey nft w = .error ("NFT transfer failed: " ++ "insufficient funds") ∧
    (∀ e, classifyTransferFailure e ≠ TransferError.sourceEmpty) := by
  cases hdst : getAccount l (getAssociatedTokenAddress nft w) with
  | some d =>
      have htx := transferSubmittedTx_present l envKey nft w d hdst
      refine ⟨by rw [htx]; simp, ?_, fun e => by simp [classifyTransferFailure]⟩
      have herr := executeInstruction_transfer_insufficient l
        (getAssociatedTokenAddress nft (transferFromKeypair envKey).publicKey)
        (getAssociatedTokenAddress nft w) (transferFromKeypair envKey).publicKey 1
        ⟨nft, (transferFromKeypair envKey).publicKey, 0⟩ d hsrc hdst rfl (by simp)
      have hex : executeTransaction l (transferSubmittedTx l envKey nft w) =
          .error "insufficient funds" := by
        rw [htx, executeTransaction_cons_error _ _ _ _ herr]
      rw [transferNFT_eq, hex]
  | none =>
      have htx := transferSubmittedTx_absent l envKey nft w hdst
      refine ⟨by rw [htx]; simp, ?_, fun e => by simp [classifyTransferFailure]⟩
      have hne : getAssociatedTokenAddress nft w ≠
          getAssociatedTokenAddress nft (transferFromKeypair envKey).publicKey := by
        intro hh
        rw [hh, hsrc] at hdst
        cases hdst
      have hstep1 := executeInstruction_createATA_absent l
        (transferFromKeypair envKey).publicKey (getAssociatedTokenAddress nft w) w nft hdst
      have hsrc1 : getAccount (setAccount l (getAssociatedTokenAddress nft w) ⟨nft, w, 0⟩)
          (getAssociatedTokenAddress nft (transferFromKeypair envKey).publicKey) =
          some ⟨nft, (transferFromKeypair envKey).publicKey, 0⟩ := by
        rw [getAccount_setAccount, if_neg hne, hsrc]
      have hdst1 : getAccount (setAccount l (getAssociatedTokenAddress nft w) ⟨nft, w, 0⟩)
          (getAssociatedTokenAddress nft w) = some ⟨nft, w, 0⟩ := by
        rw [getAccount_setAccount, if_pos rfl]
      have herr := executeInstruction_transfer_insufficient
        (setAccount l (getAssociatedTokenAddress nft w) ⟨nft, w, 0⟩)
        (getAssociatedTokenAddress nft (transferFromKeypair envKey).publicKey)
        (getAssociatedTokenAddress nft w) (transferFromKeypair envKey).publicKey 1
        ⟨nft, (transferFromKeypair envKey).publicKey, 0⟩ ⟨nft, w, 0⟩ hsrc1 hdst1 rfl
        (by simp)
      have hex : executeTransaction l (transferSubmittedTx l envKey nft w) =
          .error "insufficient funds" := by
        rw [htx, executeTransaction_cons_ok _ _ _ _ hstep1,
          executeTransaction_cons_error _ _ _ _ herr]
      rw [transferNFT_eq, hex]

/-- Witness for C6 amended: with an existing-but-empty source the routine
throws the wrapped generic message, not a distinguished source-empty
error. -/
theorem empty_source_generic_submission_failure_witness :
    getAccount emptySourceLedger demoSrcATA = some ⟨demoMint, demoPayer, 0⟩ ∧
    transferNFT emptySourceLedger none demoMint USER_WALLET_ADDRESS =
      .error ("NFT transfer failed: " ++ "insufficient funds") :=
  ⟨by decide,
   (empty_source_generic_submission_failure emptySourceLedger none demoMint
      USER_WALLET_ADDRESS (by decide)).2.1⟩

/-- C7 amended: after a successful transfer from a source holding exactly
one unit toward an absent destination, the source balance is 0, the
destination balance is 1, the total across both accounts is conserved at
1, and a corroborating re-read of the post-transfer state verifies the
destination balance; the success report of the flow, however, is not gated
on that re-read (see the counterexample). -/
theorem transfer_postcondition_balances
    (l : Ledger) (envKey : Option String) (nft w : Address)
    (hsrc : getAccount l
        (getAssociatedTokenAddress nft (transferFromKeypair envKey).publicKey) =
        some ⟨nft, (transferFromKeypair envKey).publicKey, 1⟩)
    (hdst : getAccount l (getAssociatedTokenAddress nft w) = none) :
    ∃ l2, transferNFT l envKey nft w = .ok (l2, transferSubmittedTx l envKey nft w) ∧
      getAccount l2 (getAssociatedTokenAddress nft (transferFromKeypair envKey).publicKey) =
        some ⟨nft, (transferFromKeypair envKey).publicKey, 0⟩ ∧
      getAccount l2 (getAssociatedTokenAddress nft w) = some ⟨nft, w, 1⟩ ∧
      (getAccount l2 (getAssociatedTokenAddress nft (transferFromKeypair envKey).publicKey)).elim
          0 TokenAccount.amount +
        (getAccount l2 (getAssociatedTokenAddress nft w)).elim 0 TokenAccount.amount = 1 ∧
      verifyNFTTransfer l2 nft w = .verified "Verification successful" := by
  have htx := transferSubmittedTx_absent l envKey nft w hdst
  have hne : getAssociatedTokenAddress nft w ≠
      getAssociatedTokenAddress nft (transferFromKeypair envKey).publicKey := by
    intro hh
    rw [hh, hsrc] at hdst
    cases hdst
  have hstep1 := executeInstruction_createATA_absent l
    (transferFromKeypair envKey).publicKey (getAssociatedTokenAddress nft w) w nft hdst
  have hsrc1 : getAccount (setAccount l (getAssociatedTokenAddress nft w) ⟨nft, w, 0⟩)
      (getAssociatedTokenAddress nft (transferFromKeypair envKey).publicKey) =
      some ⟨nft, (transferFromKeypair envKey).publicKey, 1⟩ := by
    rw [getAccount_setAccount, if_neg hne, hsrc]
  have hdst1 : getAccount (setAccount l (getAssociatedTokenAddress nft w) ⟨nft, w, 0⟩)
      (getAssociatedTokenAddress nft w) = some ⟨nft, w, 0⟩ := by
    rw [getAccount_setAccount, if_pos rfl]
  have hstep2 := executeInstruction_transfer_ok
    (setAccount l (getAssociatedTokenAddress nft w) ⟨nft, w, 0⟩)
    (getAssociatedTokenAddress nft (transferFromKeypair envKey).publicKey)
    (getAssociatedTokenAddress nft w) (transferFromKeypair envKey).publicKey 1
    ⟨nft, (transferFromKeypair envKey).publicKey, 1⟩ ⟨nft, w, 0⟩ hsrc1 hdst1 rfl
    (by simp) (fun hh => hne hh.symm)
  refine ⟨setAccount (setAccount (setAccount l (getAssociatedTokenAddress nft w) ⟨nft, w, 0⟩)
      (getAssociatedTokenAddress nft (transferFromKeypair envKey).publicKey)
      ⟨nft, (transferFromKeypair envKey).publicKey, 0⟩)
      (getAssociatedTokenAddress nft w) ⟨nft, w, 1⟩, ?_, ?_, ?_, ?_, ?_⟩
  · have hex : executeTransaction l (transferSubmittedTx l envKey nft w) =
        .ok (setAccount (setAccount (setAccount l (getAssociatedTokenAddress nft w) ⟨nft, w, 0⟩)
          (getAssociatedTokenAddress nft (transferFromKeypair envKey).publicKey)
          ⟨nft, (transferFromKeypair envKey).publicKey, 0⟩)
          (getAssociatedTokenAddress nft w) ⟨nft, w, 1⟩) := by
      rw [htx, executeTransaction_cons_ok _ _ _ _ hstep1,
        executeTransaction_cons_ok _ _ _ _ hstep2]
      rfl
    rw [transferNFT_eq, hex]
  · rw [getAccount_setAccount, if_neg hne, getAccount_setAccount, if_pos rfl]
  · rw [getAccount_setAccount, if_pos rfl]
  · rw [getAccount_setAccount, if_neg hne, getAccount_setAccount, if_pos rfl,
      getAccount_setAccount, if_pos rfl]
    rfl
  · have hread : getAccount (setAccount (setAccount
        (setAccount l (getAssociatedTokenAddress nft w) ⟨nft, w, 0⟩)
        (getAssociatedTokenAddress nft (transferFromKeypair envKey).publicKey)
        ⟨nft, (transferFromKeypair envKey).publicKey, 0⟩)
        (getAssociatedTokenAddress nft w) ⟨nft, w, 1⟩)
        (getAssociatedTokenAddress nft w) = some ⟨nft, w, 1⟩ := by
      rw [getAccount_setAccount, if_pos rfl]
    simp [verifyNFTTransfer, verifyNFTTransferBody, hread]

/-- Witness for C7 amended at the demo scenario. -/
theorem transfer_postcondition_balances_witness :
    getAccount preTransferLedger demoSrcATA = some ⟨demoMint, demoPayer, 1⟩ ∧
    getAccount preTransferLedger demoDestATA = none ∧
    ∃ l2, transferNFT preTransferLedger none demoMint USER_WALLET_ADDRESS =
        .ok (l2, transferSubmittedTx preTransferLedger none demoMint USER_WALLET_ADDRESS) ∧
      getAccount l2 demoSrcATA = some ⟨demoMint, demoPayer, 0⟩ ∧
      getAccount l2 demoDestATA = some ⟨demoMint, USER_WALLET_ADDRESS, 1⟩ ∧
      (getAccount l2 demoSrcATA).elim 0 TokenAccount.amount +
        (getAccount l2 demoDestATA).elim 0 TokenAccount.amount = 1 ∧
      verifyNFTTransfer l2 demoMint USER_WALLET_ADDRESS =
        .verified "Verification successful" :=
  ⟨by decide, by decide,
   transfer_postcondition_balances preTransferLedger none demoMint USER_WALLET_ADDRESS
     (by decide) (by decide)⟩

/-- C7 counterexample: the overall flow reports success together with a
FAILED corroborating re-read — when the verification connection observes a
stale state in which the destination account does not exist yet, the
re-read only yields a logged warning and the flow still returns its
success summary, so a finalized-success report is NOT only made together
with a corroborating balance read. -/
theorem finalized_reported_without_corroborating_read :
    nftTestFlow preTransferLedger preTransferLedger none demoMint USER_WALLET_ADDRESS =
      .ok ⟨demoTransferTx, .warning "could not find account"⟩ ∧
    verifyNFTTransfer preTransferLedger demoMint USER_WALLET_ADDRESS ≠
      .verified "Verification successful" := ⟨rfl, by decide⟩

/-- C9: `verifyNFTTransfer` catches every error of its body internally and
turns it into a logged warning, and the test flow reports overall success
whenever the transfer itself was submitted and confirmed, for every state
the verification re-read observes — the verification outcome never fails
the flow. -/
theorem verification_failure_never_fails_flow
    (lt lv : Ledger) (envKey : Option String) (nft w : Address)
    (res : Ledger × List Instruction)
    (h : transferNFT lt envKey nft w = .ok res) :
    nftTestFlow lt lv envKey nft w = .ok ⟨res.2, verifyNFTTransfer lv nft w⟩ ∧
    (∀ l n o e, verifyNFTTransferBody l n o = .error e →
       verifyNFTTransfer l n o = .warning e) := by
  constructor
  · obtain ⟨l2, tx⟩ := res
    simp [nftTestFlow, h]
  · intro l n o e he
    simp [verifyNFTTransfer, he]

/-- Witness for C9: the demo transfer succeeds, and with a stale (empty)
verification read the flow still reports success with a warning-only
verification outcome. -/
theorem verification_failure_never_fails_flow_witness :
    transferNFT preTransferLedger none demoMint USER_WALLET_ADDRESS =
      .ok (postTransferLedger, demoTransferTx) ∧
    nftTestFlow preTransferLedger [] none demoMint USER_WALLET_ADDRESS =
      .ok ⟨demoTransferTx, verifyNFTTransfer [] demoMint USER_WALLET_ADDRESS⟩ :=
  ⟨rfl,
   (verification_failure_never_fails_flow preTransferLedger [] none demoMint
      USER_WALLET_ADDRESS (postTransferLedger, demoTransferTx) rfl).1⟩

end NftMarketplace
